import Mathlib

/-!
Verification of the Sequence V3 backend-transaction example script
(`src/index.ts`).

The script is sequential orchestration glue: read environment
configuration, build a single-signer wallet topology, derive the wallet
address, publish the configuration (best effort), construct and sign one
transaction envelope, relay it, and poll the relayer until a terminal
status is observed.

The embedding below mirrors the first variant of `src/index.ts`
step by step.  External SDK calls (address derivation, envelope
preparation, signing, building, relaying, status queries) are opaque
collaborators; they are modelled as oracle functions supplied as input,
so the theorems quantify over every possible behaviour of those
collaborators.  The observable behaviour of a run is a trace of events
(console output, network calls, waits) together with a result
(`Except`): an `Except.error` models an exception propagating out of
`main` into the top-level `catch` handler.
-/

namespace V3Backend

/-- `requireEnv` from `src/index.ts`:
`const val = process.env[name]; if (!val) throw new Error(...); return val;`.
`process.env[name]` is modelled as `env name : Option String`; the only
falsy string is `""`, and `undefined` is `none`. -/
def requireEnv (env : String → Option String) (name : String) :
    Except String String :=
  match env name with
  | none => Except.error ("Missing environment variable: " ++ name)
  | some v =>
      if v = "" then Except.error ("Missing environment variable: " ++ name)
      else Except.ok v

/-- The seven environment variables the script reads, in read order. -/
def requiredVars : List String :=
  ["PROJECT_ACCESS_KEY", "PRIVATE_KEY", "CHAIN_ID", "TARGET_ADDRESS",
   "NODE_URL", "RELAYER_URL", "EXPLORER_URL"]

/-- The configuration values read at the top of `main`. -/
structure ConfigVals where
  projectAccessKey : String
  privateKey : String
  chainIdStr : String
  targetAddress : String
  baseNodeUrl : String
  relayerUrl : String
  explorerUrl : String
deriving DecidableEq

/-- The configuration-reading phase of `main`: seven `requireEnv` calls in
source order.  Any failure aborts `main` before anything else happens. -/
def configPhase (env : String → Option String) : Except String ConfigVals := do
  let projectAccessKey ← requireEnv env "PROJECT_ACCESS_KEY"
  let privateKey ← requireEnv env "PRIVATE_KEY"
  let chainIdStr ← requireEnv env "CHAIN_ID"
  let targetAddress ← requireEnv env "TARGET_ADDRESS"
  let baseNodeUrl ← requireEnv env "NODE_URL"
  let relayerUrl ← requireEnv env "RELAYER_URL"
  let explorerUrl ← requireEnv env "EXPLORER_URL"
  pure ⟨projectAccessKey, privateKey, chainIdStr, targetAddress,
        baseNodeUrl, relayerUrl, explorerUrl⟩

/-- Node URL construction from `src/index.ts`:
`baseNodeUrl.endsWith("/") ? baseNodeUrl + accessKey
                           : baseNodeUrl + "/" + accessKey`.
`endsWith("/")` for the one-character suffix is exactly "the last
character is a slash". -/
def nodeUrlOf (base key : String) : String :=
  if base.data.getLast? = some '/' then base ++ key else base ++ "/" ++ key

/-- Drop one trailing slash when present (specification-side helper used
to describe the shape of `nodeUrlOf`). -/
def stripTrailingSlash (l : List Char) : List Char :=
  if l.getLast? = some '/' then l.dropLast else l

/-- Wallet topology as constructed by the script: a single signer leaf
(`type: "signer"`) with its address and weight. -/
structure Topology where
  address : String
  weight : Int
deriving DecidableEq

/-- Wallet configuration: `{ threshold, checkpoint, topology }`. -/
structure WalletConfig where
  threshold : Int
  checkpoint : Int
  topology : Topology
deriving DecidableEq

/-- The deployment context constant; the script uses `Context.Rc4`. -/
inductive DeployContext where
  | rc4
deriving DecidableEq

/-- The wallet configuration the script builds for a given signer
address: weight-1 single signer under threshold 1, checkpoint 0. -/
def walletConfigOf (signerAddress : String) : WalletConfig :=
  ⟨1, 0, ⟨signerAddress, 1⟩⟩

/-- One call payload (`Payload.Call`). -/
structure Call where
  toAddress : String
  value : Int
  data : String
  gasLimit : Int
  delegateCall : Bool
  onlyFallback : Bool
  behaviorOnError : String
deriving DecidableEq

/-- The one call payload the script constructs: destination
`TARGET_ADDRESS`, value `0`, calldata `"0x"`, gas limit `0`
(auto-estimate), `delegateCall: false`, `onlyFallback: false`,
`behaviorOnError: "revert"`. -/
def callPayload (target : String) : Call :=
  ⟨target, 0, "0x", 0, false, false, "revert"⟩

/-- An unsigned envelope returned by `wallet.prepareTransaction`.  Its
contents are opaque to the script except for the `payload` field that is
passed to the signer; the payload is modelled as an abstract token. -/
structure Envelope where
  payload : Nat
deriving DecidableEq

/-- One `{ address, signature }` entry attached to an envelope;
the signature value is an abstract token. -/
structure SigEntry where
  address : String
  signature : Nat
deriving DecidableEq

/-- A signed envelope: the envelope plus the attached signatures. -/
structure SignedEnvelope where
  envelope : Envelope
  signatures : List SigEntry
deriving DecidableEq

/-- `Envelope.toSigned(envelope, sigs)`: the pure transform attaching
signatures to an envelope. -/
def Envelope.toSigned (e : Envelope) (sigs : List SigEntry) : SignedEnvelope :=
  ⟨e, sigs⟩

/-- A relayer status answer: a raw status string (the script compares it
against the literals `"confirmed"` and `"failed"`) with the optional
status-specific payload fields. -/
structure RelayStatus where
  status : String
  transactionHash : Option String
  reason : Option String
deriving DecidableEq

/-- A status is terminal when it is exactly `"confirmed"` or `"failed"`. -/
def isTerminal (st : RelayStatus) : Bool :=
  decide (st.status = "confirmed" ∨ st.status = "failed")

/-- JavaScript template interpolation of a possibly-undefined value. -/
def showOpt : Option String → String
  | some s => s
  | none => "undefined"

/-- Observable events of a run: console output (`log`, `warnE` for
`console.warn`, `errLog` for `console.error`), the progress `dot`, the
`waitE ms` delay, and the network / pipeline steps with the data they
carry. -/
inductive Event where
  | log (s : String)
  | warnE (s : String)
  | errLog (s : String)
  | dot
  | waitE (ms : Nat)
  | setupE (nodeUrl : String)
  | netSaveWallet
  | netPrepare (calls : List Call)
  | signE (wallet : String) (chain : Int) (payload : Nat)
  | attachE (se : SignedEnvelope)
  | netBuild (se : SignedEnvelope)
  | netRelay (toAddress : String) (data : String) (chain : Int)
  | netPoll (n : Nat)
deriving DecidableEq

/-- Network calls (directory publish, nonce fetch / prepare, build,
relay submit, status poll). -/
def Event.isNetwork : Event → Bool
  | .netSaveWallet => true
  | .netPrepare _ => true
  | .netBuild _ => true
  | .netRelay _ _ _ => true
  | .netPoll _ => true
  | _ => false

/-- The transaction-pipeline steps: prepare, sign, attach, build, relay. -/
def Event.isCore : Event → Bool
  | .netPrepare _ => true
  | .signE _ _ _ => true
  | .attachE _ => true
  | .netBuild _ => true
  | .netRelay _ _ _ => true
  | _ => false

/-- Status polls. -/
def Event.isPoll : Event → Bool
  | .netPoll _ => true
  | _ => false

/-- Number of status polls in a trace. -/
def countPolls (tr : List Event) : Nat := (tr.filter Event.isPoll).length

/-- Terminal outcome of the confirmation loop. -/
inductive LoopOutcome where
  | confirmedOut (transactionHash : Option String)
  | failedOut (reason : Option String)
deriving DecidableEq

/-- The confirmation `while (true)` loop of `main`, polling statuses
`n, n+1, ...`.  Since the loop need not terminate, it is run on `fuel`
iterations: the outcome `none` means the loop was still polling after
`fuel` iterations.  Each non-terminal iteration emits the poll, the
progress dot and the fixed `wait(1500)` before polling again. -/
def confirmationLoop (statusAt : Nat → RelayStatus) (explorerUrl : String) :
    Nat → Nat → List Event × Option LoopOutcome
  | 0, _ => ([], none)
  | fuel + 1, n =>
      let st := statusAt n
      if st.status = "confirmed" then
        ([Event.netPoll n,
          Event.log "\n✅ Transaction Confirmed!",
          Event.log ("Tx Hash:  " ++ showOpt st.transactionHash),
          Event.log ("Explorer: " ++ explorerUrl ++ "/tx/" ++
            showOpt st.transactionHash ++ "\n")],
         some (LoopOutcome.confirmedOut st.transactionHash))
      else if st.status = "failed" then
        ([Event.netPoll n,
          Event.errLog ("\n❌ Transaction Failed: " ++ showOpt st.reason)],
         some (LoopOutcome.failedOut st.reason))
      else
        let rest := confirmationLoop statusAt explorerUrl fuel (n + 1)
        (Event.netPoll n :: Event.dot :: Event.waitE 1500 :: rest.1, rest.2)

/-- The opaque external collaborators of the script, as oracles: the
results of `parseInt`, the signer's derived address, counterfactual
address derivation, `prepareTransaction`, `signer.sign`,
`buildTransaction`, `relayer.relay` and `relayer.status`.  Fallible SDK
calls return `Except`: an `error` models a thrown exception. -/
structure Oracles where
  parseIntTen : String → Int
  signerAddress : String
  walletAddressOf : WalletConfig → DeployContext → String
  envelopeOf : List Call → Except String Envelope
  signOf : String → Int → Nat → Except String Nat
  builtOf : SignedEnvelope → Except String (String × String)
  relayOf : String → String → Int → Except String String
  statusAt : Nat → RelayStatus

/-- The log lines and service setup between the configuration phase and
the directory publish, in source order. -/
def headerEvents (cv : ConfigVals) (o : Oracles) : List Event :=
  [Event.log "--- Sequence V3 Transaction Example ---",
   Event.log ("Chain ID: " ++ toString (o.parseIntTen cv.chainIdStr)),
   Event.log ("Signer Address (EOA): " ++ o.signerAddress),
   Event.log ("Smart Wallet Address: " ++
     o.walletAddressOf (walletConfigOf o.signerAddress) DeployContext.rc4),
   Event.log ("Target Address:       " ++ cv.targetAddress),
   Event.setupE (nodeUrlOf cv.baseNodeUrl cv.projectAccessKey)]

/-- The `try { await stateProvider.saveWallet(...) } catch` block: the
publish network call happens; on success its log line is emitted, on any
thrown error the warning is emitted and execution continues. -/
def publishTraceOf : Except String Unit → List Event
  | Except.ok _ =>
      [Event.netSaveWallet,
       Event.log "Wallet configuration published to directory."]
  | Except.error _ =>
      [Event.netSaveWallet,
       Event.warnE
         "Note: Could not publish config (might already exist). Continuing..."]

/-- Sections 5-7 of `main`: construct the call payload, prepare the
envelope, sign its payload, attach the signature, build the transaction,
relay it, and run the confirmation loop.  Any SDK error aborts with that
error. -/
def sendPhase (cv : ConfigVals) (o : Oracles) (fuel : Nat) :
    List Event × Except String (Option LoopOutcome) :=
  let chainId := o.parseIntTen cv.chainIdStr
  let walletAddress :=
    o.walletAddressOf (walletConfigOf o.signerAddress) DeployContext.rc4
  let tx := callPayload cv.targetAddress
  let ev0 := [Event.log "Preparing transaction...", Event.netPrepare [tx]]
  match o.envelopeOf [tx] with
  | Except.error e => (ev0, Except.error e)
  | Except.ok envl =>
    let ev1 := ev0 ++ [Event.signE walletAddress chainId envl.payload]
    match o.signOf walletAddress chainId envl.payload with
    | Except.error e => (ev1, Except.error e)
    | Except.ok sig =>
      let signedEnvelope := Envelope.toSigned envl [⟨o.signerAddress, sig⟩]
      let ev2 := ev1 ++ [Event.attachE signedEnvelope,
        Event.log "Relaying transaction...", Event.netBuild signedEnvelope]
      match o.builtOf signedEnvelope with
      | Except.error e => (ev2, Except.error e)
      | Except.ok (toAddress, data) =>
        let ev3 := ev2 ++ [Event.netRelay toAddress data chainId]
        match o.relayOf toAddress data chainId with
        | Except.error e => (ev3, Except.error e)
        | Except.ok opHash =>
          let lp := confirmationLoop o.statusAt cv.explorerUrl fuel 0
          (ev3 ++ [Event.log ("Transaction Sent! OpHash: " ++ opHash),
                   Event.log "Waiting for confirmation..."] ++ lp.1,
           Except.ok lp.2)

/-- `main` (first variant of `src/index.ts`): configuration phase, then
header logs and service setup, then the guarded directory publish with
outcome `pub`, then the send phase and confirmation loop. -/
def main (env : String → Option String) (o : Oracles)
    (pub : Except String Unit) (fuel : Nat) :
    List Event × Except String (Option LoopOutcome) :=
  match configPhase env with
  | Except.error e => ([], Except.error e)
  | Except.ok cv =>
      (headerEvents cv o ++ publishTraceOf pub ++ (sendPhase cv o fuel).1,
       (sendPhase cv o fuel).2)

/-- The top level `main().catch(err => { console.error("Error:", err);
process.exit(1); })`: an uncaught error is printed and the process exits
with code 1; otherwise the process ends normally with code 0. -/
def runScript (env : String → Option String) (o : Oracles)
    (pub : Except String Unit) (fuel : Nat) : List Event × Nat :=
  match main env o pub fuel with
  | (tr, Except.error e) => (tr ++ [Event.errLog ("Error: " ++ e)], 1)
  | (tr, Except.ok _) => (tr, 0)

/-! ## Demonstration inputs

Concrete oracle instantiations used by the closed witness theorems. -/

/-- Relay mock from the spec scenario: `pending` twice, then `confirmed`
with `transactionHash = "0xabc"`. -/
def demoStatuses : Nat → RelayStatus := fun n =>
  if n < 2 then ⟨"pending", none, none⟩
  else ⟨"confirmed", some "0xabc", none⟩

/-- Relay mock that reports `failed` with reason `"insufficient gas"`
on the first poll. -/
def demoFailed : Nat → RelayStatus := fun _ =>
  ⟨"failed", none, some "insufficient gas"⟩

/-- Relay mock returning a status string that is neither `"confirmed"`
nor `"failed"` and is not `"pending"` either. -/
def demoUnknown : Nat → RelayStatus := fun _ => ⟨"banana", none, none⟩

/-- Environment in which every variable is set to the empty string. -/
def demoEnvEmpty : String → Option String := fun _ => some ""

/-- Environment in which no variable is set. -/
def demoEnvNone : String → Option String := fun _ => none

/-- The environment agrees with the given configuration values and none
of them is empty. -/
abbrev envMatches (env : String → Option String) (cv : ConfigVals) : Prop :=
  env "PROJECT_ACCESS_KEY" = some cv.projectAccessKey ∧ cv.projectAccessKey ≠ "" ∧
  env "PRIVATE_KEY" = some cv.privateKey ∧ cv.privateKey ≠ "" ∧
  env "CHAIN_ID" = some cv.chainIdStr ∧ cv.chainIdStr ≠ "" ∧
  env "TARGET_ADDRESS" = some cv.targetAddress ∧ cv.targetAddress ≠ "" ∧
  env "NODE_URL" = some cv.baseNodeUrl ∧ cv.baseNodeUrl ≠ "" ∧
  env "RELAYER_URL" = some cv.relayerUrl ∧ cv.relayerUrl ≠ "" ∧
  env "EXPLORER_URL" = some cv.explorerUrl ∧ cv.explorerUrl ≠ ""

/-- Environment with every required variable set to its own name. -/
def demoEnv : String → Option String := fun name =>
  if name ∈ requiredVars then some name else none

/-- Environment with `CHAIN_ID` absent and every other required
variable present. -/
def demoEnvMissing : String → Option String := fun name =>
  if name = "CHAIN_ID" then none
  else if name ∈ requiredVars then some name else none

/-- The configuration values `configPhase` reads from `demoEnv`. -/
def demoConfig : ConfigVals :=
  ⟨"PROJECT_ACCESS_KEY", "PRIVATE_KEY", "CHAIN_ID", "TARGET_ADDRESS",
   "NODE_URL", "RELAYER_URL", "EXPLORER_URL"⟩

/-- Concrete successful oracles with the demo relay mock. -/
def demoOracles : Oracles where
  parseIntTen := fun _ => 421614
  signerAddress := "0xSigner"
  walletAddressOf := fun _ _ => "0xWallet"
  envelopeOf := fun _ => Except.ok ⟨7⟩
  signOf := fun _ _ p => Except.ok (p + 1)
  builtOf := fun _ => Except.ok ("0xWallet", "0xdata")
  relayOf := fun _ _ _ => Except.ok "0xophash"
  statusAt := demoStatuses

/-- The demo oracles, but the relayer reports `failed` immediately. -/
def demoOraclesFailed : Oracles :=
  { demoOracles with statusAt := demoFailed }

/-! ## Confirmation-loop lemmas -/

/-- One non-terminal iteration: poll, progress dot, fixed 1500 ms wait,
then continue at the next index. -/
theorem confirmationLoop_cont (s : Nat → RelayStatus) (e : String)
    (fuel n : Nat) (h1 : (s n).status ≠ "confirmed")
    (h2 : (s n).status ≠ "failed") :
    confirmationLoop s e (fuel + 1) n =
      (Event.netPoll n :: Event.dot :: Event.waitE 1500 ::
        (confirmationLoop s e fuel (n + 1)).1,
       (confirmationLoop s e fuel (n + 1)).2) := by
  simp [confirmationLoop, h1, h2]

/-- If no status is ever terminal, the loop never produces an outcome,
for any amount of fuel. -/
theorem confirmationLoop_none_of_no_terminal (s : Nat → RelayStatus)
    (e : String) (h : ∀ n, isTerminal (s n) = false) :
    ∀ fuel n, (confirmationLoop s e fuel n).2 = none := by
  intro fuel
  induction fuel with
  | zero => intro n; rfl
  | succ f ih =>
      intro n
      have hn := h n
      simp [isTerminal, decide_eq_false_iff_not, not_or] at hn
      rw [confirmationLoop_cont s e f n hn.1 hn.2]
      exact ih (n + 1)

/-- If some status is terminal, enough fuel makes the loop produce an
outcome. -/
theorem confirmationLoop_some_of_terminal (s : Nat → RelayStatus) (e : String) :
    ∀ k n, isTerminal (s (n + k)) = true →
      ((confirmationLoop s e (k + 1) n).2).isSome = true := by
  intro k
  induction k with
  | zero =>
      intro n h
      simp [isTerminal] at h
      rcases h with hc | hf
      · simp [confirmationLoop, hc]
      · simp [confirmationLoop, hf]
  | succ k ih =>
      intro n h
      by_cases ht : isTerminal (s n) = true
      · simp [isTerminal] at ht
        rcases ht with hc | hf
        · simp [confirmationLoop, hc]
        · simp [confirmationLoop, hf]
      · have ht' := Bool.eq_false_iff.mpr ht
        simp [isTerminal, decide_eq_false_iff_not, not_or] at ht'
        rw [confirmationLoop_cont s e (k + 1) n ht'.1 ht'.2]
        have heq : n + (k + 1) = (n + 1) + k := by omega
        rw [heq] at h
        exact ih (n + 1) h

/-- A terminal iteration issues exactly one poll and polls only the
current index. -/
theorem confirmationLoop_terminal_trace (s : Nat → RelayStatus) (e : String)
    (fuel n : Nat) (h : isTerminal (s n) = true) :
    countPolls (confirmationLoop s e (fuel + 1) n).1 = 1 ∧
    (∀ i, Event.netPoll i ∈ (confirmationLoop s e (fuel + 1) n).1 → i = n) := by
  simp [isTerminal] at h
  rcases h with hc | hf
  · simp [confirmationLoop, hc, countPolls, Event.isPoll, List.filter]
  · simp [confirmationLoop, hf, countPolls, Event.isPoll, List.filter]

/-- When the first terminal status (counting from the start index) is at
offset `k` and the fuel suffices, the loop issues exactly `k + 1` polls,
all of indices between the start and the terminal one. -/
theorem confirmationLoop_first_terminal_aux (s : Nat → RelayStatus) (e : String) :
    ∀ k n fuel, k + 1 ≤ fuel →
      (∀ i, i < k → isTerminal (s (n + i)) = false) →
      isTerminal (s (n + k)) = true →
      countPolls (confirmationLoop s e fuel n).1 = k + 1 ∧
      (∀ i, Event.netPoll i ∈ (confirmationLoop s e fuel n).1 →
        n ≤ i ∧ i ≤ n + k) := by
  intro k
  induction k with
  | zero =>
      intro n fuel hfuel _ hterm
      obtain ⟨f, rfl⟩ : ∃ f, fuel = f + 1 := ⟨fuel - 1, by omega⟩
      simp only [Nat.add_zero] at hterm
      obtain ⟨hcount, hmem⟩ := confirmationLoop_terminal_trace s e f n hterm
      refine ⟨hcount, fun i hi => ?_⟩
      have := hmem i hi
      omega
  | succ k ih =>
      intro n fuel hfuel hmin hterm
      obtain ⟨f, rfl⟩ : ∃ f, fuel = f + 1 := ⟨fuel - 1, by omega⟩
      have h0 : isTerminal (s n) = false := by
        have := hmin 0 (by omega)
        simpa using this
      simp [isTerminal, decide_eq_false_iff_not, not_or] at h0
      rw [confirmationLoop_cont s e f n h0.1 h0.2]
      have hmin2 : ∀ i, i < k → isTerminal (s ((n + 1) + i)) = false := by
        intro i hik
        have hlt := hmin (i + 1) (by omega)
        have heq : n + (i + 1) = (n + 1) + i := by omega
        rwa [heq] at hlt
      have hterm2 : isTerminal (s ((n + 1) + k)) = true := by
        have heq : n + (k + 1) = (n + 1) + k := by omega
        rwa [heq] at hterm
      obtain ⟨hcount, hmem⟩ := ih (n + 1) f (by omega) hmin2 hterm2
      constructor
      · simp [countPolls, Event.isPoll, List.filter] at hcount ⊢
        omega
      · intro i hi
        simp only [List.mem_cons] at hi
        rcases hi with h | h | h | hi
        · injection h with h2
          omega
        · simp at h
        · simp at h
        · have := hmem i hi
          omega

/-- Every wait the loop ever performs is exactly 1500 ms. -/
theorem confirmationLoop_waits (s : Nat → RelayStatus) (e : String) :
    ∀ fuel n ms, Event.waitE ms ∈ (confirmationLoop s e fuel n).1 → ms = 1500 := by
  intro fuel
  induction fuel with
  | zero => intro n ms h; simp [confirmationLoop] at h
  | succ f ih =>
      intro n ms h
      by_cases hc : (s n).status = "confirmed"
      · simp [confirmationLoop, hc] at h
      · by_cases hf : (s n).status = "failed"
        · simp [confirmationLoop, hc, hf] at h
        · rw [confirmationLoop_cont s e f n hc hf] at h
          simp only [List.mem_cons] at h
          rcases h with h | h | h | h
          · simp at h
          · simp at h
          · injection h
          · exact ih (n + 1) ms h

/-- Every iteration starts by polling the current index. -/
theorem confirmationLoop_polls_head (s : Nat → RelayStatus) (e : String)
    (fuel n : Nat) :
    Event.netPoll n ∈ (confirmationLoop s e (fuel + 1) n).1 := by
  by_cases hc : (s n).status = "confirmed"
  · simp [confirmationLoop, hc]
  · by_cases hf : (s n).status = "failed"
    · simp [confirmationLoop, hc, hf]
    · simp [confirmationLoop, hc, hf]

/-! ## Claims about the confirmation loop -/

/-- Claim C2: the confirmation loop stops at the first status equal to
`"confirmed"` or `"failed"` and issues no further status polls after
it.  With the first terminal status at index `k` and enough fuel, the
loop issues exactly `k + 1` polls and never polls an index past `k`.
(The witness instantiates the spec scenario pending, pending, confirmed:
exactly three polls.) -/
theorem loop_stops_at_first_terminal (s : Nat → RelayStatus) (e : String)
    (k fuel : Nat) (hfuel : k + 1 ≤ fuel)
    (hmin : ∀ i, i < k → isTerminal (s i) = false)
    (hk : isTerminal (s k) = true) :
    countPolls (confirmationLoop s e fuel 0).1 = k + 1 ∧
    ∀ i, Event.netPoll i ∈ (confirmationLoop s e fuel 0).1 → i ≤ k := by
  have hmin0 : ∀ i, i < k → isTerminal (s (0 + i)) = false := by
    intro i hik; simpa using hmin i hik
  have hk0 : isTerminal (s (0 + k)) = true := by simpa using hk
  obtain ⟨hcount, hmem⟩ :=
    confirmationLoop_first_terminal_aux s e k 0 fuel hfuel hmin0 hk0
  exact ⟨hcount, fun i hi => by have := hmem i hi; omega⟩

/-- Witness for C2: on the mock pending, pending, confirmed, exactly
three status polls are issued. -/
theorem loop_stops_at_first_terminal_ex :
    countPolls (confirmationLoop demoStatuses "https://sepolia.arbiscan.io" 10 0).1 = 2 + 1 :=
  (loop_stops_at_first_terminal demoStatuses "https://sepolia.arbiscan.io" 2 10
    (by omega) (by decide) (by decide)).1

/-- Claim C3: the loop polls at a fixed constant 1500 ms interval with no
backoff and no cap, and it terminates (produces an outcome under some
fuel) if and only if some poll returns a terminal status; if every poll
is non-terminal the loop runs forever (no fuel yields an outcome). -/
theorem loop_fixed_interval_and_termination (s : Nat → RelayStatus) (e : String) :
    (∀ fuel n ms, Event.waitE ms ∈ (confirmationLoop s e fuel n).1 → ms = 1500) ∧
    ((∃ k, isTerminal (s k) = true) ↔
      ∃ fuel, ((confirmationLoop s e fuel 0).2).isSome = true) ∧
    ((∀ n, isTerminal (s n) = false) →
      ∀ fuel, (confirmationLoop s e fuel 0).2 = none) := by
  refine ⟨confirmationLoop_waits s e, ⟨?_, ?_⟩, ?_⟩
  · rintro ⟨k, hk⟩
    exact ⟨k + 1, confirmationLoop_some_of_terminal s e k 0 (by simpa using hk)⟩
  · rintro ⟨fuel, hfuel⟩
    by_contra hno
    push_neg at hno
    have hall : ∀ n, isTerminal (s n) = false := fun n =>
      Bool.eq_false_iff.mpr (hno n)
    rw [confirmationLoop_none_of_no_terminal s e hall fuel 0] at hfuel
    simp at hfuel
  · intro hall fuel
    exact confirmationLoop_none_of_no_terminal s e hall fuel 0

/-- Witness for C3: a terminal status exists in the demo mock, so some
fuel yields an outcome. -/
theorem loop_fixed_interval_and_termination_ex :
    ∃ fuel, ((confirmationLoop demoStatuses "https://sepolia.arbiscan.io" fuel 0).2).isSome = true :=
  (loop_fixed_interval_and_termination demoStatuses "https://sepolia.arbiscan.io").2.1.mp
    ⟨2, by decide⟩

/-- Claim C6: on a `"confirmed"` poll the run emits the returned
transaction hash and the explorer URL formed as the explorer base,
`"/tx/"`, then the hash, and the loop halts with exactly that one poll;
on a `"failed"` poll the run emits the returned failure reason and
halts likewise. -/
theorem loop_terminal_branch_output (s : Nat → RelayStatus) (e : String)
    (n fuel : Nat) :
    ((s n).status = "confirmed" →
      confirmationLoop s e (fuel + 1) n =
        ([Event.netPoll n, Event.log "\n✅ Transaction Confirmed!",
          Event.log ("Tx Hash:  " ++ showOpt (s n).transactionHash),
          Event.log ("Explorer: " ++ e ++ "/tx/" ++
            showOpt (s n).transactionHash ++ "\n")],
         some (LoopOutcome.confirmedOut (s n).transactionHash)) ∧
      countPolls (confirmationLoop s e (fuel + 1) n).1 = 1) ∧
    ((s n).status = "failed" →
      confirmationLoop s e (fuel + 1) n =
        ([Event.netPoll n,
          Event.errLog ("\n❌ Transaction Failed: " ++ showOpt (s n).reason)],
         some (LoopOutcome.failedOut (s n).reason)) ∧
      countPolls (confirmationLoop s e (fuel + 1) n).1 = 1) := by
  constructor
  · intro hc
    constructor
    · simp [confirmationLoop, hc]
    · simp [confirmationLoop, hc, countPolls, Event.isPoll, List.filter]
  · intro hf
    constructor
    · simp [confirmationLoop, hf]
    · simp [confirmationLoop, hf, countPolls, Event.isPoll, List.filter]

/-- Witness for C6: both terminal branches at concrete mocks; the
explorer link is built from the returned hash `"0xabc"`, and the failed
branch reports `"insufficient gas"`. -/
theorem loop_terminal_branch_output_ex :
    confirmationLoop demoStatuses "https://sepolia.arbiscan.io" (7 + 1) 2 =
      ([Event.netPoll 2, Event.log "\n✅ Transaction Confirmed!",
        Event.log ("Tx Hash:  " ++ "0xabc"),
        Event.log ("Explorer: " ++ "https://sepolia.arbiscan.io" ++ "/tx/" ++
          "0xabc" ++ "\n")],
       some (LoopOutcome.confirmedOut (some "0xabc"))) ∧
    confirmationLoop demoFailed "https://sepolia.arbiscan.io" (0 + 1) 0 =
      ([Event.netPoll 0,
        Event.errLog ("\n❌ Transaction Failed: " ++ "insufficient gas")],
       some (LoopOutcome.failedOut (some "insufficient gas"))) :=
  ⟨((loop_terminal_branch_output demoStatuses "https://sepolia.arbiscan.io" 2 7).1
      (by decide)).1,
   ((loop_terminal_branch_output demoFailed "https://sepolia.arbiscan.io" 0 0).2
      (by decide)).1⟩

/-- Claim C10: the loop exits only on the exact strings `"confirmed"`
and `"failed"`; for any other status string the iteration emits the
progress dot, waits the fixed 1500 ms, and polls again at the next
index. -/
theorem loop_continues_on_unknown_status (s : Nat → RelayStatus) (e : String)
    (n fuel : Nat) (h1 : (s n).status ≠ "confirmed")
    (h2 : (s n).status ≠ "failed") :
    (confirmationLoop s e (fuel + 2) n).1 =
      Event.netPoll n :: Event.dot :: Event.waitE 1500 ::
        (confirmationLoop s e (fuel + 1) (n + 1)).1 ∧
    (confirmationLoop s e (fuel + 2) n).2 =
      (confirmationLoop s e (fuel + 1) (n + 1)).2 ∧
    Event.netPoll (n + 1) ∈ (confirmationLoop s e (fuel + 2) n).1 := by
  have hstep := confirmationLoop_cont s e (fuel + 1) n h1 h2
  refine ⟨by rw [hstep], by rw [hstep], ?_⟩
  rw [hstep]
  simp only [List.mem_cons]
  exact Or.inr (Or.inr (Or.inr (confirmationLoop_polls_head s e fuel (n + 1))))

/-- Witness for C10: on the unrecognized status string `"banana"` the
loop emits a dot, waits 1500 ms, and polls index 1 next. -/
theorem loop_continues_on_unknown_status_ex :
    (confirmationLoop demoUnknown "E" (0 + 2) 0).1 =
      Event.netPoll 0 :: Event.dot :: Event.waitE 1500 ::
        (confirmationLoop demoUnknown "E" (0 + 1) 1).1 ∧
    (confirmationLoop demoUnknown "E" (0 + 2) 0).2 =
      (confirmationLoop demoUnknown "E" (0 + 1) 1).2 ∧
    Event.netPoll 1 ∈ (confirmationLoop demoUnknown "E" (0 + 2) 0).1 :=
  loop_continues_on_unknown_status demoUnknown "E" 0 0 (by decide) (by decide)

/-! ## Environment-variable lemmas -/

/-- A present, non-empty variable is returned as its string value. -/
theorem requireEnv_ok (env : String → Option String) (name s : String)
    (h : env name = some s) (hne : s ≠ "") :
    requireEnv env name = Except.ok s := by
  simp [requireEnv, h, hne]

/-- An absent variable raises the error naming it. -/
theorem requireEnv_missing (env : String → Option String) (name : String)
    (h : env name = none) :
    requireEnv env name = Except.error ("Missing environment variable: " ++ name) := by
  simp [requireEnv, h]

/-- Claim C9: an empty-string value is treated exactly like an absent
variable: it raises the same `Missing environment variable` error that
an absent variable raises. -/
theorem empty_env_treated_as_missing (env envAbsent : String → Option String)
    (name : String) (h : env name = some "") (h2 : envAbsent name = none) :
    requireEnv env name =
      Except.error ("Missing environment variable: " ++ name) ∧
    requireEnv env name = requireEnv envAbsent name := by
  simp [requireEnv, h, h2]



/-- Witness for C9 at the concrete variable `CHAIN_ID`. -/
theorem empty_env_treated_as_missing_ex :
    requireEnv demoEnvEmpty "CHAIN_ID" =
      Except.error ("Missing environment variable: " ++ "CHAIN_ID") ∧
    requireEnv demoEnvEmpty "CHAIN_ID" = requireEnv demoEnvNone "CHAIN_ID" :=
  empty_env_treated_as_missing demoEnvEmpty demoEnvNone "CHAIN_ID" rfl rfl


/-- Claim C5: for each of the seven required variables, when it is
absent (and the others are present) the run fails with the error naming
that variable and performs nothing at all — in particular no network
call, since the trace is empty; when all are present, each lookup
returns the variable's string value. -/
theorem required_env_contract (env : String → Option String) (o : Oracles)
    (pub : Except String Unit) (fuel : Nat) :
    (∀ v ∈ requiredVars, env v = none →
      (∀ u ∈ requiredVars, u ≠ v → ∃ s, env u = some s ∧ s ≠ "") →
      main env o pub fuel =
        ([], Except.error ("Missing environment variable: " ++ v))) ∧
    (∀ cv : ConfigVals, envMatches env cv → configPhase env = Except.ok cv) := by
  constructor
  · intro v hv habs hoth
    simp only [requiredVars, List.mem_cons, List.not_mem_nil, or_false] at hv
    rcases hv with rfl | rfl | rfl | rfl | rfl | rfl | rfl
    · simp [main, configPhase, Bind.bind, Except.bind, Functor.map, Except.map, requireEnv_missing env _ habs]
    · obtain ⟨s1, e1, n1⟩ := hoth "PROJECT_ACCESS_KEY" (by simp [requiredVars]) (by decide)
      simp [main, configPhase, Bind.bind, Except.bind, Functor.map, Except.map, requireEnv_ok env _ s1 e1 n1,
        requireEnv_missing env _ habs]
    · obtain ⟨s1, e1, n1⟩ := hoth "PROJECT_ACCESS_KEY" (by simp [requiredVars]) (by decide)
      obtain ⟨s2, e2, n2⟩ := hoth "PRIVATE_KEY" (by simp [requiredVars]) (by decide)
      simp [main, configPhase, Bind.bind, Except.bind, Functor.map, Except.map, requireEnv_ok env _ s1 e1 n1,
        requireEnv_ok env _ s2 e2 n2, requireEnv_missing env _ habs]
    · obtain ⟨s1, e1, n1⟩ := hoth "PROJECT_ACCESS_KEY" (by simp [requiredVars]) (by decide)
      obtain ⟨s2, e2, n2⟩ := hoth "PRIVATE_KEY" (by simp [requiredVars]) (by decide)
      obtain ⟨s3, e3, n3⟩ := hoth "CHAIN_ID" (by simp [requiredVars]) (by decide)
      simp [main, configPhase, Bind.bind, Except.bind, Functor.map, Except.map, requireEnv_ok env _ s1 e1 n1,
        requireEnv_ok env _ s2 e2 n2, requireEnv_ok env _ s3 e3 n3,
        requireEnv_missing env _ habs]
    · obtain ⟨s1, e1, n1⟩ := hoth "PROJECT_ACCESS_KEY" (by simp [requiredVars]) (by decide)
      obtain ⟨s2, e2, n2⟩ := hoth "PRIVATE_KEY" (by simp [requiredVars]) (by decide)
      obtain ⟨s3, e3, n3⟩ := hoth "CHAIN_ID" (by simp [requiredVars]) (by decide)
      obtain ⟨s4, e4, n4⟩ := hoth "TARGET_ADDRESS" (by simp [requiredVars]) (by decide)
      simp [main, configPhase, Bind.bind, Except.bind, Functor.map, Except.map, requireEnv_ok env _ s1 e1 n1,
        requireEnv_ok env _ s2 e2 n2, requireEnv_ok env _ s3 e3 n3,
        requireEnv_ok env _ s4 e4 n4, requireEnv_missing env _ habs]
    · obtain ⟨s1, e1, n1⟩ := hoth "PROJECT_ACCESS_KEY" (by simp [requiredVars]) (by decide)
      obtain ⟨s2, e2, n2⟩ := hoth "PRIVATE_KEY" (by simp [requiredVars]) (by decide)
      obtain ⟨s3, e3, n3⟩ := hoth "CHAIN_ID" (by simp [requiredVars]) (by decide)
      obtain ⟨s4, e4, n4⟩ := hoth "TARGET_ADDRESS" (by simp [requiredVars]) (by decide)
      obtain ⟨s5, e5, n5⟩ := hoth "NODE_URL" (by simp [requiredVars]) (by decide)
      simp [main, configPhase, Bind.bind, Except.bind, Functor.map, Except.map, requireEnv_ok env _ s1 e1 n1,
        requireEnv_ok env _ s2 e2 n2, requireEnv_ok env _ s3 e3 n3,
        requireEnv_ok env _ s4 e4 n4, requireEnv_ok env _ s5 e5 n5,
        requireEnv_missing env _ habs]
    · obtain ⟨s1, e1, n1⟩ := hoth "PROJECT_ACCESS_KEY" (by simp [requiredVars]) (by decide)
      obtain ⟨s2, e2, n2⟩ := hoth "PRIVATE_KEY" (by simp [requiredVars]) (by decide)
      obtain ⟨s3, e3, n3⟩ := hoth "CHAIN_ID" (by simp [requiredVars]) (by decide)
      obtain ⟨s4, e4, n4⟩ := hoth "TARGET_ADDRESS" (by simp [requiredVars]) (by decide)
      obtain ⟨s5, e5, n5⟩ := hoth "NODE_URL" (by simp [requiredVars]) (by decide)
      obtain ⟨s6, e6, n6⟩ := hoth "RELAYER_URL" (by simp [requiredVars]) (by decide)
      simp [main, configPhase, Bind.bind, Except.bind, Functor.map, Except.map, requireEnv_ok env _ s1 e1 n1,
        requireEnv_ok env _ s2 e2 n2, requireEnv_ok env _ s3 e3 n3,
        requireEnv_ok env _ s4 e4 n4, requireEnv_ok env _ s5 e5 n5,
        requireEnv_ok env _ s6 e6 n6, requireEnv_missing env _ habs]
  · intro cv hm
    obtain ⟨h1, n1, h2, n2, h3, n3, h4, n4, h5, n5, h6, n6, h7, n7⟩ := hm
    simp [configPhase, Bind.bind, Except.bind, Functor.map, Except.map,
      Pure.pure, Except.pure, requireEnv_ok env _ _ h1 n1, requireEnv_ok env _ _ h2 n2,
      requireEnv_ok env _ _ h3 n3, requireEnv_ok env _ _ h4 n4,
      requireEnv_ok env _ _ h5 n5, requireEnv_ok env _ _ h6 n6,
      requireEnv_ok env _ _ h7 n7]

/-! ## Demonstration environment and oracles -/






/-- Witness for C5: omitting `CHAIN_ID` aborts with the error naming it
and an empty trace; with all variables present each lookup returns its
value. -/
theorem required_env_contract_ex :
    main demoEnvMissing demoOracles (Except.ok ()) 1 =
      ([], Except.error ("Missing environment variable: " ++ "CHAIN_ID")) ∧
    configPhase demoEnv = Except.ok demoConfig :=
  ⟨(required_env_contract demoEnvMissing demoOracles (Except.ok ()) 1).1
      "CHAIN_ID" (by decide) (by decide)
      (by intro u hu hne
          simp only [requiredVars, List.mem_cons, List.not_mem_nil, or_false] at hu
          rcases hu with rfl | rfl | rfl | rfl | rfl | rfl | rfl
          all_goals first
            | exact absurd rfl hne
            | exact ⟨_, rfl, by decide⟩),
   (required_env_contract demoEnv demoOracles (Except.ok ()) 1).2
      demoConfig (by decide)⟩

/-! ## Claims about the main flow -/

/-- Claim C1: a failure of the directory-publish step (any thrown
error, e.g. already published) is caught: the run logs the warning and
continues into the send phase with exactly the same events and the same
result as a run whose publish succeeded; a publish failure never aborts
the flow. -/
theorem publish_failure_not_fatal (env : String → Option String) (o : Oracles)
    (fuel : Nat) (msg : String) (cv : ConfigVals)
    (hcfg : configPhase env = Except.ok cv) :
    (main env o (Except.error msg) fuel).2 =
      (main env o (Except.ok ()) fuel).2 ∧
    (main env o (Except.error msg) fuel).2 = (sendPhase cv o fuel).2 ∧
    (main env o (Except.error msg) fuel).1 =
      headerEvents cv o ++
        [Event.netSaveWallet,
         Event.warnE
           "Note: Could not publish config (might already exist). Continuing..."] ++
        (sendPhase cv o fuel).1 ∧
    (main env o (Except.ok ()) fuel).1 =
      headerEvents cv o ++
        [Event.netSaveWallet,
         Event.log "Wallet configuration published to directory."] ++
        (sendPhase cv o fuel).1 := by
  simp [main, hcfg, publishTraceOf]

/-- Witness for C1 on concrete inputs: the failed-publish run and the
successful-publish run reach the same result. -/
theorem publish_failure_not_fatal_ex :
    (main demoEnv demoOracles (Except.error "already published") 3).2 =
      (main demoEnv demoOracles (Except.ok ()) 3).2 ∧
    (main demoEnv demoOracles (Except.error "already published") 3).2 =
      (sendPhase demoConfig demoOracles 3).2 ∧
    (main demoEnv demoOracles (Except.error "already published") 3).1 =
      headerEvents demoConfig demoOracles ++
        [Event.netSaveWallet,
         Event.warnE
           "Note: Could not publish config (might already exist). Continuing..."] ++
        (sendPhase demoConfig demoOracles 3).1 ∧
    (main demoEnv demoOracles (Except.ok ()) 3).1 =
      headerEvents demoConfig demoOracles ++
        [Event.netSaveWallet,
         Event.log "Wallet configuration published to directory."] ++
        (sendPhase demoConfig demoOracles 3).1 :=
  publish_failure_not_fatal demoEnv demoOracles 3 "already published"
    demoConfig rfl

/-- The confirmation loop performs no transaction-pipeline step. -/
theorem confirmationLoop_no_core (s : Nat → RelayStatus) (e : String) :
    ∀ fuel n, ((confirmationLoop s e fuel n).1).filter Event.isCore = [] := by
  intro fuel
  induction fuel with
  | zero => intro n; rfl
  | succ f ih =>
      intro n
      by_cases hc : (s n).status = "confirmed"
      · simp [confirmationLoop, hc, Event.isCore]
      · by_cases hf : (s n).status = "failed"
        · simp [confirmationLoop, hc, hf, Event.isCore]
        · rw [confirmationLoop_cont s e f n hc hf]
          simp [Event.isCore, ih (n + 1)]

/-- Claim C4: whatever the environment and oracles (provided each step
succeeds), the run performs exactly once each, in this order: prepare
the envelope from the single constructed call payload, sign its
payload, attach the signature, build the signed envelope into a target
and calldata, and relay exactly the pair returned by the build step. -/
theorem transaction_pipeline_once (env : String → Option String) (o : Oracles)
    (pub : Except String Unit) (fuel : Nat) (cv : ConfigVals)
    (envl : Envelope) (sig : Nat) (toAddress data opHash : String)
    (hcfg : configPhase env = Except.ok cv)
    (hprep : o.envelopeOf [callPayload cv.targetAddress] = Except.ok envl)
    (hsig : o.signOf
        (o.walletAddressOf (walletConfigOf o.signerAddress) DeployContext.rc4)
        (o.parseIntTen cv.chainIdStr) envl.payload = Except.ok sig)
    (hbuild : o.builtOf (Envelope.toSigned envl [⟨o.signerAddress, sig⟩]) =
        Except.ok (toAddress, data))
    (hrelay : o.relayOf toAddress data (o.parseIntTen cv.chainIdStr) =
        Except.ok opHash) :
    (main env o pub fuel).1.filter Event.isCore =
      [Event.netPrepare [callPayload cv.targetAddress],
       Event.signE
         (o.walletAddressOf (walletConfigOf o.signerAddress) DeployContext.rc4)
         (o.parseIntTen cv.chainIdStr) envl.payload,
       Event.attachE (Envelope.toSigned envl [⟨o.signerAddress, sig⟩]),
       Event.netBuild (Envelope.toSigned envl [⟨o.signerAddress, sig⟩]),
       Event.netRelay toAddress data (o.parseIntTen cv.chainIdStr)] := by
  cases pub with
  | ok u =>
      simp [main, hcfg, sendPhase, hprep, hsig, hbuild, hrelay, headerEvents,
        publishTraceOf, List.filter_append, confirmationLoop_no_core,
        Event.isCore]
  | error e =>
      simp [main, hcfg, sendPhase, hprep, hsig, hbuild, hrelay, headerEvents,
        publishTraceOf, List.filter_append, confirmationLoop_no_core,
        Event.isCore]

/-- Witness for C4 on the concrete demo run. -/
theorem transaction_pipeline_once_ex :
    (main demoEnv demoOracles (Except.ok ()) 5).1.filter Event.isCore =
      [Event.netPrepare [callPayload "TARGET_ADDRESS"],
       Event.signE "0xWallet" 421614 7,
       Event.attachE (Envelope.toSigned ⟨7⟩ [⟨"0xSigner", 8⟩]),
       Event.netBuild (Envelope.toSigned ⟨7⟩ [⟨"0xSigner", 8⟩]),
       Event.netRelay "0xWallet" "0xdata" 421614] :=
  transaction_pipeline_once demoEnv demoOracles (Except.ok ()) 5 demoConfig
    ⟨7⟩ 8 "0xWallet" "0xdata" "0xophash" rfl rfl rfl rfl rfl

/-- Claim C7: an error propagating uncaught out of `main` is printed
and the process exits with code 1; a run in which `main` returns
normally — in particular one whose confirmation loop ended in the
`failed` branch — exits with code 0. -/
theorem exit_code_policy (env : String → Option String) (o : Oracles)
    (pub : Except String Unit) (fuel : Nat) :
    (∀ e, (main env o pub fuel).2 = Except.error e →
      (runScript env o pub fuel).2 = 1 ∧
      Event.errLog ("Error: " ++ e) ∈ (runScript env o pub fuel).1) ∧
    (∀ out, (main env o pub fuel).2 = Except.ok out →
      (runScript env o pub fuel).2 = 0) ∧
    (∀ r, (main env o pub fuel).2 =
        Except.ok (some (LoopOutcome.failedOut r)) →
      (runScript env o pub fuel).2 = 0) := by
  rcases hmain : main env o pub fuel with ⟨tr, res⟩
  refine ⟨?_, ?_, ?_⟩
  · intro e he
    have hres : res = Except.error e := he
    subst hres
    simp [runScript, hmain]
  · intro out hout
    have hres : res = Except.ok out := hout
    subst hres
    simp [runScript, hmain]
  · intro r hr
    have hres : res = Except.ok (some (LoopOutcome.failedOut r)) := hr
    subst hres
    simp [runScript, hmain]

/-- Witness for C7: the run with `CHAIN_ID` absent exits with code 1;
the run whose relay reports `failed` exits with code 0. -/
theorem exit_code_policy_ex :
    (runScript demoEnvMissing demoOracles (Except.ok ()) 1).2 = 1 ∧
    (runScript demoEnv demoOraclesFailed (Except.ok ()) 1).2 = 0 :=
  ⟨((exit_code_policy demoEnvMissing demoOracles (Except.ok ()) 1).1
      ("Missing environment variable: " ++ "CHAIN_ID") rfl).1,
   (exit_code_policy demoEnv demoOraclesFailed (Except.ok ()) 1).2.2
     (some "insufficient gas") rfl⟩

/-! ## Node URL construction -/

/-- Claim C8: the node endpoint URL is `NODE_URL` with the access key
appended as a single path segment.  The result always decomposes as the
base with one trailing slash removed, then exactly one `'/'`, then the
key — so it always ends with the access key; and provided the base does
not already end in a doubled slash and the key does not start with one,
the characters adjacent to the joining slash are not slashes, i.e. the
join never contains a doubled slash. -/
theorem nodeUrl_single_slash_join (base key : String)
    (hb : ¬ ['/', '/'] <:+ base.data)
    (hk : key.data.head? ≠ some '/') :
    (nodeUrlOf base key).data =
      stripTrailingSlash base.data ++ '/' :: key.data ∧
    (stripTrailingSlash base.data).getLast? ≠ some '/' ∧
    key.data.head? ≠ some '/' ∧
    key.data <:+ (nodeUrlOf base key).data := by
  by_cases h : base.data.getLast? = some '/'
  · have hbase : base.data.dropLast ++ ['/'] = base.data :=
      List.dropLast_append_getLast? '/' (by simp [h])
    refine ⟨?_, ?_, hk, ?_⟩
    · simp only [nodeUrlOf, stripTrailingSlash, h, if_pos, if_true]
      rw [String.data_append, ← hbase]
      simp
    · simp only [stripTrailingSlash, h, if_pos, if_true]
      intro hc
      have h2 : base.data.dropLast.dropLast ++ ['/'] = base.data.dropLast :=
        List.dropLast_append_getLast? '/' (by simp [hc])
      refine hb ⟨base.data.dropLast.dropLast, ?_⟩
      calc base.data.dropLast.dropLast ++ ['/', '/']
          = (base.data.dropLast.dropLast ++ ['/']) ++ ['/'] := by simp
        _ = base.data.dropLast ++ ['/'] := by rw [h2]
        _ = base.data := hbase
    · simp only [nodeUrlOf, h, if_pos, if_true]
      rw [String.data_append]
      exact List.suffix_append _ _
  · refine ⟨?_, ?_, hk, ?_⟩
    · simp only [nodeUrlOf, stripTrailingSlash, h, if_neg, if_false]
      rw [String.data_append, String.data_append]
      simp
    · simp only [stripTrailingSlash, h, if_neg, if_false]
      exact h
    · simp only [nodeUrlOf, h, if_neg, if_false]
      rw [String.data_append]
      exact List.suffix_append _ _

/-- Witness for C8 at the documented node URL and a concrete key. -/
theorem nodeUrl_single_slash_join_ex :
    (nodeUrlOf "https://nodes.sequence.app/arbitrum-sepolia" "KEY").data =
      stripTrailingSlash ("https://nodes.sequence.app/arbitrum-sepolia").data ++
        '/' :: ("KEY").data ∧
    (stripTrailingSlash
      ("https://nodes.sequence.app/arbitrum-sepolia").data).getLast? ≠
        some '/' ∧
    ("KEY").data.head? ≠ some '/' ∧
    ("KEY").data <:+
      (nodeUrlOf "https://nodes.sequence.app/arbitrum-sepolia" "KEY").data :=
  nodeUrl_single_slash_join "https://nodes.sequence.app/arbitrum-sepolia"
    "KEY" (by decide) (by decide)

end V3Backend
